import Mathlib

/-!
Verification development for the USMART gateway main loop
(`src/main/mainloop.py`).  The definitions below are a shallow embedding of
the mode-2 ("Mark Three") supervisor: wall-clock times are natural numbers
(MicroPython `utime.time()` counts seconds since the 2000 epoch), Python
integers coming from JSON configuration are `Int`, the three bounded
`ucollections.deque` queues are lists (oldest element first), and the
hardware / network collaborators (WiFi chip, HTTP client, NM3 modem,
TDA-MAC protocol driver) are parameters supplying their observable results.
-/

namespace GatewayMainloop

/-- Append of MicroPython's bounded `ucollections.deque` created without the
overflow-check flag (as `deque((), maxlen)` is in `run_mainloop`,
mainloop.py lines 417–419): when the deque already holds `maxlen` items the
oldest one is silently overwritten, otherwise the item is appended.  The
list holds the oldest element at the head. -/
def dequeAppend (maxlen : Nat) (q : List Nat) (x : Nat) : List Nat :=
  if q.length < maxlen then q ++ [x] else q.tail ++ [x]

/-- `json_to_send_messages = deque((), 50)` (mainloop.py line 417). -/
def json_to_send_messages_append (q : List Nat) (x : Nat) : List Nat :=
  dequeAppend 50 q x

/-- `json_to_send_statuses = deque((), 20)` (mainloop.py line 418). -/
def json_to_send_statuses_append (q : List Nat) (x : Nat) : List Nat :=
  dequeAppend 20 q x

/-- `json_to_send_network_topologies = deque((), 40)` (mainloop.py line 419). -/
def json_to_send_network_topologies_append (q : List Nat) (x : Nat) : List Nat :=
  dequeAppend 40 q x

/-- The RTC module-level globals of mainloop.py (lines 181–207):
`_rtc_callback_flag`, `_rtc_callback_seconds`, `_rtc_alarm_period_s`,
`_rtc_next_alarm_time_s` (0 means the alarm is cancelled). -/
structure RtcState where
  rtc_callback_flag : Bool
  rtc_callback_seconds : Nat
  rtc_alarm_period_s : Nat
  rtc_next_alarm_time_s : Nat
deriving DecidableEq, Repr

/-- `rtc_callback` (mainloop.py lines 210–222): runs on every hardware RTC
tick; only when `0 < _rtc_next_alarm_time_s <= utime.time()` does it set the
flag, record the wall time and advance the next alarm time by the period. -/
def rtc_callback (now : Nat) (s : RtcState) : RtcState :=
  if 0 < s.rtc_next_alarm_time_s ∧ s.rtc_next_alarm_time_s ≤ now then
    { rtc_callback_flag := true
      rtc_callback_seconds := now
      rtc_alarm_period_s := s.rtc_alarm_period_s
      rtc_next_alarm_time_s := s.rtc_next_alarm_time_s + s.rtc_alarm_period_s }
  else s

/-- `rtc_set_next_alarm_time_s` (mainloop.py lines 186–191): the argument is
a Python integer (it is called with `network_next_frame_time_s -
utime.time() - 60`, which can be negative); only when
`0 < alarm_time_s_from_now <= 7200` is the next alarm time assigned
`utime.time() + alarm_time_s_from_now`, otherwise nothing happens. -/
def rtc_set_next_alarm_time_s (now : Nat) (alarm_time_s_from_now : Int)
    (s : RtcState) : RtcState :=
  if 0 < alarm_time_s_from_now ∧ alarm_time_s_from_now ≤ 7200 then
    { s with rtc_next_alarm_time_s := now + alarm_time_s_from_now.toNat }
  else s

/-- `rtc_set_alarm_period_s` (mainloop.py lines 194–204): sets the period
and retargets the next alarm from now; period 0 cancels the alarm. -/
def rtc_set_alarm_period_s (now : Nat) (alarm_period_s : Nat)
    (s : RtcState) : RtcState :=
  if 0 < alarm_period_s then
    { s with rtc_alarm_period_s := alarm_period_s
             rtc_next_alarm_time_s := now + alarm_period_s }
  else
    { s with rtc_alarm_period_s := alarm_period_s, rtc_next_alarm_time_s := 0 }

/-- Packet type of a received `MessagePacket` from the NM3 driver
(`uac_modem.main.unm3driver`): unicast, broadcast, or anything else the
driver may report (including `None`). -/
inductive PacketType where
  | unicast
  | broadcast
  | unknown
deriving DecidableEq, Repr

/-- The fields of a received acoustic packet that the command dispatch in
`run_mainloop` (mainloop.py lines 900–986) inspects: `packet_type` and
`packet_payload` (payload bytes, rendered here as the ASCII string the code
compares against, empty string for an empty/absent payload). -/
structure MessagePacket where
  packet_type : PacketType
  packet_payload : String
deriving DecidableEq, Repr

/-- The five local command side effects the gateway can enact on a received
packet (mainloop.py lines 900–986). -/
inductive CommandEffect where
  | resetDevice           -- USMRT: machine.reset()
  | writeOtaFlagAndReset  -- USOTA: write `.USOTA`, then machine.reset()
  | sendAliveBroadcast    -- USPNG: send_usmart_alive_message
  | broadcastModuleList   -- USMOD: broadcast installed module list
  | doCalibration         -- USCALDO: ack, calibrate, broadcast extents
deriving DecidableEq, Repr

/-- The command dispatch performed on each received packet in mode 2
(mainloop.py lines 900–986): five independent guards, each requiring
`packet_type == MessagePacket.PACKETTYPE_UNICAST`, a truthy (non-empty)
payload, and an exact payload match.  Returns the effects executed, in
source order. -/
def process_packet_commands (pkt : MessagePacket) : List CommandEffect :=
  (if pkt.packet_type = PacketType.unicast ∧ pkt.packet_payload ≠ "" ∧
      pkt.packet_payload = "USMRT" then [CommandEffect.resetDevice] else []) ++
  (if pkt.packet_type = PacketType.unicast ∧ pkt.packet_payload ≠ "" ∧
      pkt.packet_payload = "USOTA" then [CommandEffect.writeOtaFlagAndReset] else []) ++
  (if pkt.packet_type = PacketType.unicast ∧ pkt.packet_payload ≠ "" ∧
      pkt.packet_payload = "USPNG" then [CommandEffect.sendAliveBroadcast] else []) ++
  (if pkt.packet_type = PacketType.unicast ∧ pkt.packet_payload ≠ "" ∧
      pkt.packet_payload = "USMOD" then [CommandEffect.broadcastModuleList] else []) ++
  (if pkt.packet_type = PacketType.unicast ∧ pkt.packet_payload ≠ "" ∧
      pkt.packet_payload = "USCALDO" then [CommandEffect.doCalibration] else [])

/-- Outcome of one HTTP POST attempt: `some code` is a completed request
with that status code, `none` is a raised exception (network failure).  The
attempt counts as a success exactly when `200 <= response.status_code < 300`
(mainloop.py line 1216); an exception is caught and is not a success. -/
def http_success (r : Option Int) : Bool :=
  match r with
  | some code => decide (200 ≤ code ∧ code < 300)
  | none => false

/-- The per-item retry loop of the HTTP shipper (mainloop.py lines
1204–1228): `retry_count = 0; success_flag = False; while not success_flag
and retry_count < 4: retry_count += 1; attempt`.  `responses i` is the
outcome of attempt `i` (0-based).  The fuel argument bounds the recursion;
4 units are enough because `retry_count` grows by one per iteration and the
guard requires `retry_count < 4`.  Returns the final
`(retry_count, success_flag)`. -/
def http_post_item_loop (responses : Nat → Option Int) :
    Nat → Nat → Bool → Nat × Bool
  | 0, retry_count, success_flag => (retry_count, success_flag)
  | fuel + 1, retry_count, success_flag =>
    if success_flag = false ∧ retry_count < 4 then
      http_post_item_loop responses fuel (retry_count + 1)
        (http_success (responses retry_count))
    else (retry_count, success_flag)

/-- One queue item shipped by the HTTP shipper: up to 4 attempts, stopping
at the first success (mainloop.py lines 1204–1228). -/
def http_post_item (responses : Nat → Option Int) : Nat × Bool :=
  http_post_item_loop responses 4 0 false

/-- The queue drain loop of the HTTP shipper (mainloop.py lines 1202–1228):
`while queue: item = queue.popleft(); <retry loop>`.  `responses x i` is the
outcome of attempt `i` for item `x`.  Returns the final queue content and,
per drained item, the attempts made and whether it was delivered.  Items
are never re-enqueued: delivery is at-most-4-attempts, not reliable. -/
def http_drain_queue (responses : Nat → Nat → Option Int) :
    List Nat → List Nat × List (Nat × Nat × Bool)
  | [] => ([], [])
  | x :: rest =>
    let r := http_post_item (responses x)
    let (finalq, log) := http_drain_queue responses rest
    (finalq, (x, r.1, r.2) :: log)

/-- The WiFi lifecycle state `_wifi_current_transition` (mainloop.py lines
59–62). -/
inductive WifiTransition where
  | static
  | connecting
  | disconnecting
deriving DecidableEq, Repr

/-- A parsed `../../config/wifi_cfg.json` as returned by `load_wifi_config`
(mainloop.py lines 65–75); `none` models an absent or malformed file (the
function swallows every exception and returns `None`). -/
structure WifiCfg where
  ssid : String
  password : String
deriving DecidableEq, Repr

/-- The JSON body returned by `GET /networkconfig/latest/` as consumed in
mainloop.py lines 1175–1182.  Each field is `none` when the key is missing
from the response (a missing key raises `KeyError` at that subscript). -/
structure NetConfigJson where
  nm3GatewayStayAwake : Option Bool
  nm3SensorStayAwake : Option Bool
  cycleLimit : Option Int
  partialsPerFullDiscovery : Option Int
  guardIntervalMs : Option Int
  frameIntervalS : Option Int
  linkQualityThreshold : Option Int
  nodeAddresses : Option (List Int)
deriving DecidableEq, Repr

/-- The mode-2 supervisor state of `run_mainloop` (mainloop.py lines
411–460): the RTC globals, the NM3 ISR snapshot, the three outbound queues
(items abstracted to identifiers), the WiFi lifecycle fields and the
network configuration / frame-scheduler fields.  Configuration integers are
`Int` because they come from JSON. -/
structure GwState where
  rtc : RtcState
  nm3_callback_flag : Bool
  nm3_callback_seconds : Nat
  json_to_send_messages : List Nat
  json_to_send_statuses : List Nat
  json_to_send_network_topologies : List Nat
  network_config_is_stale : Bool
  wifi_current_transition : WifiTransition
  wifi_connection_retry_count : Nat
  wifi_connecting_start_time : Nat
  wifi_disconnecting_start_time : Nat
  network_nm3_gateway_stay_awake : Bool
  network_nm3_sensor_stay_awake : Bool
  network_cycle_limit : Int
  network_partials_per_full_discovery : Int
  network_guard_interval_ms : Int
  network_frame_interval_s : Int
  network_link_quality_threshold : Int
  network_node_addresses : List Int
  network_cycle_counter : Nat
  network_partials_counter : Nat
  network_next_frame_time_s : Int
  network_is_configured : Bool
  network_do_full_configuration : Bool
  network_do_partial_configuration : Bool
deriving DecidableEq, Repr

/-- The node-address change test of mainloop.py lines 1184–1190: a full
configuration is triggered when the downloaded list's length differs from
the held list's, or (at equal lengths) some downloaded address is not held
(`for the_address in node_addresses: if the_address not in
network_node_addresses`). -/
def node_addresses_changed (new_addrs old_addrs : List Int) : Bool :=
  decide (new_addrs.length ≠ old_addrs.length) ||
    new_addrs.any (fun a => decide (a ∉ old_addrs))

/-- Application of a downloaded network configuration (mainloop.py lines
1174–1191).  The Python code assigns the eight globals one by one from
dictionary subscripts; a missing key raises `KeyError` at that subscript,
aborting the iteration (caught at the loop boundary, line 1368) with the
earlier assignments already performed.  Returns the state after the block
and whether it ran to completion. -/
def apply_network_config_json (s : GwState) (j : NetConfigJson) :
    GwState × Bool :=
  match j.nm3GatewayStayAwake with
  | none => (s, false)
  | some v1 =>
    let s := { s with network_nm3_gateway_stay_awake := v1 }
    match j.nm3SensorStayAwake with
    | none => (s, false)
    | some v2 =>
      let s := { s with network_nm3_sensor_stay_awake := v2 }
      match j.cycleLimit with
      | none => (s, false)
      | some v3 =>
        let s := { s with network_cycle_limit := v3 }
        match j.partialsPerFullDiscovery with
        | none => (s, false)
        | some v4 =>
          let s := { s with network_partials_per_full_discovery := v4 }
          match j.guardIntervalMs with
          | none => (s, false)
          | some v5 =>
            let s := { s with network_guard_interval_ms := v5 }
            match j.frameIntervalS with
            | none => (s, false)
            | some v6 =>
              let s := { s with network_frame_interval_s := v6 }
              match j.linkQualityThreshold with
              | none => (s, false)
              | some v7 =>
                let s := { s with network_link_quality_threshold := v7 }
                match j.nodeAddresses with
                | none => (s, false)
                | some v8 =>
                  ({ s with
                      network_do_full_configuration :=
                        s.network_do_full_configuration ||
                          node_addresses_changed v8 s.network_node_addresses
                      network_node_addresses := v8 }, true)

/-- The WiFi / HTTP section of a mode-2 supervisor iteration (mainloop.py
lines 1093–1307).  Entered only when a queue is non-empty or the network
config is stale.  External observations are parameters: `wifi_connected`
(`is_wifi_connected()`), `wifi_cfg` (`load_wifi_config()`), `start_ok`
(`start_connect_to_wifi(...)`), and `pull_result` (the JSON obtained by the
network-config GET retry loop, `none` when all 4 attempts failed).  In the
connected branch the three drain loops pop every queued item (delivered or
discarded either way), so the queues end empty; if applying a downloaded
config raises partway, the iteration aborts with the partial update in
place and the stale flag still set. -/
def wifi_section (now : Nat) (wifi_connected : Bool) (wifi_cfg : Option WifiCfg)
    (start_ok : Bool) (pull_result : Option NetConfigJson) (s : GwState) :
    GwState :=
  if s.json_to_send_messages.isEmpty && s.json_to_send_statuses.isEmpty &&
      s.json_to_send_network_topologies.isEmpty && !s.network_config_is_stale then
    s
  else
    if !wifi_connected &&
        !(decide (s.wifi_current_transition = WifiTransition.connecting)) &&
        decide (s.wifi_disconnecting_start_time + 2 < now) then
      match wifi_cfg with
      | some _ =>
        if start_ok then
          { s with wifi_connecting_start_time := now
                   wifi_current_transition := WifiTransition.connecting
                   wifi_connection_retry_count := s.wifi_connection_retry_count + 1 }
        else s
      | none =>
        -- mainloop.py lines 1120–1132: no WiFi credentials, so drop
        -- everything and stand down.
        { s with json_to_send_messages := []
                 json_to_send_statuses := []
                 json_to_send_network_topologies := []
                 network_config_is_stale := false
                 wifi_current_transition := WifiTransition.static }
    else if wifi_connected then
      let s1 := { s with wifi_current_transition := WifiTransition.static
                         wifi_connection_retry_count := 0 }
      if s1.network_config_is_stale then
        match pull_result with
        | some j =>
          let applied := apply_network_config_json s1 j
          if applied.2 then
            { applied.1 with
                network_config_is_stale := false
                json_to_send_messages := []
                json_to_send_statuses := []
                json_to_send_network_topologies := [] }
          else
            applied.1  -- KeyError: the rest of the iteration is skipped
        | none =>
          -- Download failed: still cleared as not stale (lines 1193–1196),
          -- then the queues are drained.
          { s1 with network_config_is_stale := false
                    json_to_send_messages := []
                    json_to_send_statuses := []
                    json_to_send_network_topologies := [] }
      else
        { s1 with json_to_send_messages := []
                  json_to_send_statuses := []
                  json_to_send_network_topologies := [] }
    else if decide (s.wifi_current_transition = WifiTransition.connecting) &&
        decide (s.wifi_connecting_start_time + 30 < now) then
      -- mainloop.py lines 1294–1303: connecting for more than 30 s.
      { s with wifi_disconnecting_start_time := now
               wifi_current_transition := WifiTransition.disconnecting }
    else
      s

/-- The reconfiguration-scheduling step at the top of the frame section
(mainloop.py lines 993–999): once `cycle_counter >= cycle_limit`, choose a
full rediscovery when `partials_counter >= partials_per_full_discovery` and
a partial one otherwise. -/
def frame_schedule_phase (s : GwState) : GwState :=
  if (s.network_cycle_counter : Int) ≥ s.network_cycle_limit then
    if (s.network_partials_counter : Int) ≥ s.network_partials_per_full_discovery then
      { s with network_do_partial_configuration := false
               network_do_full_configuration := true }
    else
      { s with network_do_partial_configuration := true }
  else s

/-- The full-rediscovery re-initialisation (mainloop.py lines 1005–1010):
`net_protocol.init(nm3_modem, network_node_addresses, wdt)` followed by
`network_partials_counter = 0`. -/
def frame_full_reinit (s : GwState) : GwState :=
  { s with network_partials_counter := 0 }

/-- The discovery part of the configuration branch (mainloop.py lines
1013–1024): `network_is_configured = False`, then on successful
`do_net_discovery` the schedule is installed, `cycle_counter` resets,
`partials_counter` advances for a partial configuration, both
configuration flags clear, and the frame epoch is set to now. -/
def frame_post_discovery (now : Nat) (discovery_ok : Bool) (s : GwState) :
    GwState :=
  if discovery_ok then
    { s with network_cycle_counter := 0
             network_partials_counter :=
               if s.network_do_partial_configuration then
                 s.network_partials_counter + 1
               else s.network_partials_counter
             network_do_full_configuration := false
             network_do_partial_configuration := false
             network_is_configured := true
             network_next_frame_time_s := (now : Int) }
  else
    { s with network_is_configured := false }

/-- The configuration branch of the frame section (mainloop.py lines
1001–1024), returning also whether the protocol was re-initialised (the
full-rediscovery path). -/
def frame_configure_phase (now : Nat) (discovery_ok : Bool) (s : GwState) :
    GwState × Bool :=
  if s.network_do_full_configuration || s.network_do_partial_configuration then
    if s.network_do_full_configuration then
      (frame_post_discovery now discovery_ok (frame_full_reinit s), true)
    else
      (frame_post_discovery now discovery_ok s, false)
  else (s, false)

/-- The data-gathering part of the frame section (mainloop.py lines
1043–1074), run only when the network is configured: the frame epoch
advances by the frame interval, the RTC is retargeted to wake 60 s before
the new frame time, `gather_sensor_data` runs (its returned packets are the
`packets` parameter) and every packet is enqueued as a message. -/
def frame_gather_phase (now : Nat) (packets : List Nat) (s : GwState) :
    GwState :=
  if s.network_is_configured then
    let nf := s.network_next_frame_time_s + s.network_frame_interval_s
    { s with network_next_frame_time_s := nf
             rtc := rtc_set_next_alarm_time_s now (nf - (now : Int) - 60) s.rtc
             network_cycle_counter := s.network_cycle_counter + 1
             json_to_send_messages :=
               packets.foldl json_to_send_messages_append s.json_to_send_messages }
  else s

/-- The whole frame-scheduler section of a mode-2 iteration (mainloop.py
lines 989–1089).  Gated on a non-empty node set and the frame time having
been reached; always ends by enqueueing one topology record (`topo_item`).
Returns whether `net_protocol.init` was invoked (full rediscovery). -/
def frame_section (now : Nat) (discovery_ok : Bool) (packets : List Nat)
    (topo_item : Nat) (s : GwState) : GwState × Bool :=
  if !s.network_node_addresses.isEmpty &&
      decide (s.network_next_frame_time_s ≤ (now : Int)) then
    let s1 := frame_schedule_phase s
    let cfg := frame_configure_phase now discovery_ok s1
    let s3 := frame_gather_phase now packets cfg.1
    let topos := json_to_send_network_topologies_append
      s3.json_to_send_network_topologies topo_item
    ({ s3 with json_to_send_network_topologies := topos }, cfg.2)
  else (s, false)

/-- The sleep-entry section closing a mode-2 iteration (mainloop.py lines
1311–1364).  The gate (lines 1311–1316) requires both wake flags clear and
either the WiFi retry budget exhausted (`retry count > 5`) or: the message
and status queues empty, more than 30 s since the last NM3 synch, and
either no node addresses or the next frame more than 60 s away.  When it
fires, the WiFi is disconnected, the retry count reset and the transition
set to disconnecting, after which the light-sleep loop runs until a flag is
raised.  Returns the state and whether sleep entry was initiated. -/
def sleep_section (now : Nat) (s : GwState) : GwState × Bool :=
  if !s.rtc.rtc_callback_flag && !s.nm3_callback_flag &&
      (decide (5 < s.wifi_connection_retry_count) ||
        (s.json_to_send_messages.isEmpty && s.json_to_send_statuses.isEmpty &&
          decide (s.nm3_callback_seconds + 30 < now) &&
          (s.network_node_addresses.isEmpty ||
            decide ((now : Int) + 60 < s.network_next_frame_time_s)))) then
    ({ s with wifi_disconnecting_start_time := now
              wifi_connection_retry_count := 0
              wifi_current_transition := WifiTransition.disconnecting }, true)
  else (s, false)

/-! ### Concrete states used by counterexamples and witnesses -/

/-- A concrete supervisor state with the initial values `run_mainloop`
assigns before entering the loop (mainloop.py lines 411–448), wall-clock
fields zeroed. -/
def baseState : GwState :=
  { rtc := { rtc_callback_flag := false, rtc_callback_seconds := 0,
             rtc_alarm_period_s := 3600, rtc_next_alarm_time_s := 0 }
    nm3_callback_flag := false
    nm3_callback_seconds := 0
    json_to_send_messages := []
    json_to_send_statuses := []
    json_to_send_network_topologies := []
    network_config_is_stale := false
    wifi_current_transition := WifiTransition.static
    wifi_connection_retry_count := 0
    wifi_connecting_start_time := 0
    wifi_disconnecting_start_time := 0
    network_nm3_gateway_stay_awake := true
    network_nm3_sensor_stay_awake := true
    network_cycle_limit := 6
    network_partials_per_full_discovery := 6
    network_guard_interval_ms := 500
    network_frame_interval_s := 3600
    network_link_quality_threshold := 4
    network_node_addresses := []
    network_cycle_counter := 0
    network_partials_counter := 0
    network_next_frame_time_s := 0
    network_is_configured := false
    network_do_full_configuration := false
    network_do_partial_configuration := false }

/-! ### C2 — the RTC interrupt callback -/

/-- Claim C2: on every invocation of the RTC callback, the pending flag is
asserted exactly when the next-alarm wall time is non-zero and at most the
current wall time; on assertion the current wall time is recorded in
`_rtc_callback_seconds` and the next-alarm time advances by exactly the
alarm period; otherwise the state is untouched. -/
theorem rtc_callback_spec (now : Nat) (s : RtcState) :
    (s.rtc_next_alarm_time_s ≠ 0 ∧ s.rtc_next_alarm_time_s ≤ now →
      rtc_callback now s =
        { rtc_callback_flag := true
          rtc_callback_seconds := now
          rtc_alarm_period_s := s.rtc_alarm_period_s
          rtc_next_alarm_time_s := s.rtc_next_alarm_time_s + s.rtc_alarm_period_s }) ∧
    (s.rtc_next_alarm_time_s = 0 ∨ now < s.rtc_next_alarm_time_s →
      rtc_callback now s = s) := by
  constructor
  · intro h
    unfold rtc_callback
    rw [if_pos]
    omega
  · intro h
    unfold rtc_callback
    rw [if_neg]
    omega

/-- Witness for C2: at wall time 100 with the alarm due at 90 and a 3600 s
period, the callback fires, records 100 and retargets 3690; at wall time 50
it leaves the state alone. -/
theorem rtc_callback_spec_witness :
    rtc_callback 100 ⟨false, 0, 3600, 90⟩ =
      { rtc_callback_flag := true, rtc_callback_seconds := 100,
        rtc_alarm_period_s := 3600, rtc_next_alarm_time_s := 3690 } ∧
    rtc_callback 50 ⟨false, 0, 3600, 90⟩ = ⟨false, 0, 3600, 90⟩ :=
  ⟨(rtc_callback_spec 100 ⟨false, 0, 3600, 90⟩).1 (by decide),
   (rtc_callback_spec 50 ⟨false, 0, 3600, 90⟩).2 (by decide)⟩

/-! ### C3 — bounded queues -/

lemma dequeAppend_length_le (n : Nat) (hn : 0 < n) (q : List Nat) (x : Nat)
    (h : q.length ≤ n) : (dequeAppend n q x).length ≤ n := by
  unfold dequeAppend
  split
  · simp
    omega
  · simp
    omega

lemma dequeAppend_full (n : Nat) (q : List Nat) (x : Nat) (h : q.length = n) :
    dequeAppend n q x = q.tail ++ [x] := by
  unfold dequeAppend
  rw [if_neg]
  omega

lemma dequeAppend_not_full (n : Nat) (q : List Nat) (x : Nat)
    (h : q.length < n) : dequeAppend n q x = q ++ [x] := by
  unfold dequeAppend
  rw [if_pos h]

/-- Claim C3: appends keep the message queue at no more than 50 items, the
status queue at no more than 20 and the topology queue at no more than 40;
an append to a full queue drops exactly the oldest element (no error, no
other element removed), and an append to a non-full queue drops nothing. -/
theorem queue_caps_and_oldest_drop (q : List Nat) (x : Nat) :
    (q.length ≤ 50 → (json_to_send_messages_append q x).length ≤ 50) ∧
    (q.length = 50 → json_to_send_messages_append q x = q.tail ++ [x]) ∧
    (q.length < 50 → json_to_send_messages_append q x = q ++ [x]) ∧
    (q.length ≤ 20 → (json_to_send_statuses_append q x).length ≤ 20) ∧
    (q.length = 20 → json_to_send_statuses_append q x = q.tail ++ [x]) ∧
    (q.length < 20 → json_to_send_statuses_append q x = q ++ [x]) ∧
    (q.length ≤ 40 → (json_to_send_network_topologies_append q x).length ≤ 40) ∧
    (q.length = 40 → json_to_send_network_topologies_append q x = q.tail ++ [x]) ∧
    (q.length < 40 → json_to_send_network_topologies_append q x = q ++ [x]) := by
  unfold json_to_send_messages_append json_to_send_statuses_append
    json_to_send_network_topologies_append
  exact ⟨dequeAppend_length_le 50 (by omega) q x,
         dequeAppend_full 50 q x,
         dequeAppend_not_full 50 q x,
         dequeAppend_length_le 20 (by omega) q x,
         dequeAppend_full 20 q x,
         dequeAppend_not_full 20 q x,
         dequeAppend_length_le 40 (by omega) q x,
         dequeAppend_full 40 q x,
         dequeAppend_not_full 40 q x⟩

/-- Witness for C3: a full 50-item message queue keeps 50 items and loses
exactly its oldest element; a 1-item status queue just grows. -/
theorem queue_caps_and_oldest_drop_witness :
    (json_to_send_messages_append (List.replicate 50 7) 9).length ≤ 50 ∧
    json_to_send_messages_append (List.replicate 50 7) 9 =
      (List.replicate 50 7).tail ++ [9] ∧
    json_to_send_statuses_append [1] 2 = [1, 2] :=
  ⟨(queue_caps_and_oldest_drop (List.replicate 50 7) 9).1 (by simp),
   (queue_caps_and_oldest_drop (List.replicate 50 7) 9).2.1 (by simp),
   (queue_caps_and_oldest_drop [1] 2).2.2.2.2.2.1 (by simp)⟩

/-! ### C7 — broadcast commands are never honored -/

/-- Claim C7: a received packet whose type is not unicast triggers none of
the five command side effects (USMRT, USOTA, USPNG, USMOD, USCALDO),
whatever its payload. -/
theorem broadcast_commands_not_honored (pkt : MessagePacket)
    (h : pkt.packet_type ≠ PacketType.unicast) :
    process_packet_commands pkt = [] := by
  simp [process_packet_commands, h]

/-- Witness for C7: a broadcast `USMRT` payload triggers nothing. -/
theorem broadcast_commands_not_honored_witness :
    process_packet_commands
      { packet_type := PacketType.broadcast, packet_payload := "USMRT" } = [] :=
  broadcast_commands_not_honored
    { packet_type := PacketType.broadcast, packet_payload := "USMRT" } (by decide)

/-! ### C8 — rtc_set_next_alarm_time_s does not clamp -/

/-- An RTC state with a pending next-alarm time of 5, used to exhibit that
out-of-range arguments to `rtc_set_next_alarm_time_s` change nothing. -/
def rtcStateFive : RtcState :=
  { rtc_callback_flag := false, rtc_callback_seconds := 0,
    rtc_alarm_period_s := 3600, rtc_next_alarm_time_s := 5 }

/-- Counterexample to C8: at wall time 100, an argument of 0 leaves the
next-alarm time at 5 instead of setting 100 + 1, and an argument of 7201
leaves it at 5 instead of setting 100 + 7200 — the function guards the
range, it does not clamp into it. -/
theorem rtc_set_next_alarm_no_clamp_cex :
    rtc_set_next_alarm_time_s 100 0 rtcStateFive = rtcStateFive ∧
    (rtc_set_next_alarm_time_s 100 0 rtcStateFive).rtc_next_alarm_time_s ≠ 100 + 1 ∧
    rtc_set_next_alarm_time_s 100 7201 rtcStateFive = rtcStateFive ∧
    (rtc_set_next_alarm_time_s 100 7201 rtcStateFive).rtc_next_alarm_time_s ≠
      100 + 7200 := by
  decide

/-- Claim C8 as amended: `rtc_set_next_alarm_time_s(s)` assigns
`now + s` only when `1 ≤ s ≤ 7200`; for any argument outside that range it
leaves the alarm state unchanged (no clamping takes place). -/
theorem rtc_set_next_alarm_guard_spec (now : Nat) (arg : Int) (s : RtcState) :
    (0 < arg ∧ arg ≤ 7200 →
      rtc_set_next_alarm_time_s now arg s =
        { s with rtc_next_alarm_time_s := now + arg.toNat }) ∧
    (arg ≤ 0 ∨ 7200 < arg → rtc_set_next_alarm_time_s now arg s = s) := by
  constructor
  · intro h
    unfold rtc_set_next_alarm_time_s
    rw [if_pos h]
  · intro h
    unfold rtc_set_next_alarm_time_s
    rw [if_neg]
    omega

/-- Witness for C8 (amended): an in-range argument of 60 at wall time 100
targets 160; the out-of-range argument 0 changes nothing. -/
theorem rtc_set_next_alarm_guard_spec_witness :
    rtc_set_next_alarm_time_s 100 60 rtcStateFive =
      { rtcStateFive with rtc_next_alarm_time_s := 160 } ∧
    rtc_set_next_alarm_time_s 100 0 rtcStateFive = rtcStateFive :=
  ⟨(rtc_set_next_alarm_guard_spec 100 60 rtcStateFive).1 (by decide),
   (rtc_set_next_alarm_guard_spec 100 0 rtcStateFive).2 (by decide)⟩

/-! ### C5 — the HTTP shipper retry policy -/

lemma http_post_item_eq (r : Nat → Option Int) :
    http_post_item r =
      if http_success (r 0) then (1, true)
      else if http_success (r 1) then (2, true)
      else if http_success (r 2) then (3, true)
      else if http_success (r 3) then (4, true)
      else (4, false) := by
  cases h0 : http_success (r 0) <;> cases h1 : http_success (r 1) <;>
    cases h2 : http_success (r 2) <;> cases h3 : http_success (r 3) <;>
      simp [http_post_item, http_post_item_loop, h0, h1, h2, h3]

lemma http_drain_queue_eq (responses : Nat → Nat → Option Int) (q : List Nat) :
    (http_drain_queue responses q).1 = [] ∧
    (http_drain_queue responses q).2 = q.map fun x =>
      (x, (http_post_item (responses x)).1, (http_post_item (responses x)).2) := by
  induction q with
  | nil => simp [http_drain_queue]
  | cons x rest ih => simp [http_drain_queue, ih.1, ih.2]

/-- Claim C5: each item drained from an outbound queue gets at most 4 POST
attempts; only the final attempt can be the successful one (no attempt
follows a success); the success flag is exactly the outcome of the final
attempt, and an attempt succeeds exactly when the HTTP status code is in
`200 ≤ code < 300` (an exception, `none`, never succeeds); when all
attempts fail the count is exactly 4; and the drain loop removes every item
from the queue, re-enqueueing nothing. -/
theorem http_shipper_item_spec (r : Nat → Option Int)
    (responses : Nat → Nat → Option Int) (q : List Nat) :
    (http_post_item r).1 ≤ 4 ∧
    (∀ j, j + 1 < (http_post_item r).1 → http_success (r j) = false) ∧
    (http_post_item r).2 = http_success (r ((http_post_item r).1 - 1)) ∧
    ((http_post_item r).2 = false →
      (http_post_item r).1 = 4 ∧ ∀ j, j < 4 → http_success (r j) = false) ∧
    (∀ code : Int, http_success (some code) = true ↔ 200 ≤ code ∧ code < 300) ∧
    http_success none = false ∧
    (http_drain_queue responses q).1 = [] ∧
    (http_drain_queue responses q).2 = q.map (fun x =>
      (x, (http_post_item (responses x)).1, (http_post_item (responses x)).2)) := by
  have he := http_post_item_eq r
  refine ⟨?_, ?_, ?_, ?_, ?_, rfl, (http_drain_queue_eq responses q).1,
    (http_drain_queue_eq responses q).2⟩
  · rw [he]
    split_ifs <;> norm_num
  · intro j hj
    rw [he] at hj
    split_ifs at hj with h0 h1 h2 h3
    · have h : j + 1 < 1 := hj
      omega
    · have h : j + 1 < 2 := hj
      have hj0 : j = 0 := by omega
      subst hj0
      simpa using h0
    · have h : j + 1 < 3 := hj
      rcases j with _ | (_ | j)
      · simpa using h0
      · simpa using h1
      · omega
    · have h : j + 1 < 4 := hj
      rcases j with _ | (_ | (_ | j))
      · simpa using h0
      · simpa using h1
      · simpa using h2
      · omega
    · have h : j + 1 < 4 := hj
      rcases j with _ | (_ | (_ | j))
      · simpa using h0
      · simpa using h1
      · simpa using h2
      · omega
  · rw [he]
    split_ifs with h0 h1 h2 h3 <;> simp_all
  · intro hfail
    rw [he] at hfail ⊢
    split_ifs at hfail ⊢ with h0 h1 h2 h3
    any_goals simp at hfail
    refine ⟨rfl, ?_⟩
    intro j hj
    rcases j with _ | (_ | (_ | (_ | j)))
    · simpa using h0
    · simpa using h1
    · simpa using h2
    · simpa using h3
    · omega
  · intro code
    simp [http_success]

/-- Witness for C5: when every attempt returns status 500, the item is
given exactly 4 attempts and then dropped. -/
theorem http_shipper_item_spec_witness :
    (http_post_item (fun _ => some (500 : Int))).1 = 4 :=
  ((http_shipper_item_spec (fun _ => some (500 : Int))
      (fun _ _ => some (500 : Int)) []).2.2.2.1 (by decide)).1

/-! ### C9 — network-config application is a prefix update, not atomic -/

/-- Closed-form characterisation of `apply_network_config_json`: the block
completes exactly when all eight keys are present, and each global ends up
holding the downloaded value exactly when every key before it (in
assignment order) is present — a prefix update. -/
lemma apply_network_config_json_spec (s : GwState) (j : NetConfigJson) :
    ((apply_network_config_json s j).2 = true ↔
      (j.nm3GatewayStayAwake.isSome = true ∧ j.nm3SensorStayAwake.isSome = true ∧
       j.cycleLimit.isSome = true ∧ j.partialsPerFullDiscovery.isSome = true ∧
       j.guardIntervalMs.isSome = true ∧ j.frameIntervalS.isSome = true ∧
       j.linkQualityThreshold.isSome = true ∧ j.nodeAddresses.isSome = true)) ∧
    (apply_network_config_json s j).1.network_nm3_gateway_stay_awake =
      j.nm3GatewayStayAwake.getD s.network_nm3_gateway_stay_awake ∧
    (apply_network_config_json s j).1.network_nm3_sensor_stay_awake =
      (if j.nm3GatewayStayAwake.isSome then
        j.nm3SensorStayAwake.getD s.network_nm3_sensor_stay_awake
      else s.network_nm3_sensor_stay_awake) ∧
    (apply_network_config_json s j).1.network_cycle_limit =
      (if j.nm3GatewayStayAwake.isSome ∧ j.nm3SensorStayAwake.isSome then
        j.cycleLimit.getD s.network_cycle_limit
      else s.network_cycle_limit) ∧
    (apply_network_config_json s j).1.network_partials_per_full_discovery =
      (if j.nm3GatewayStayAwake.isSome ∧ j.nm3SensorStayAwake.isSome ∧
          j.cycleLimit.isSome then
        j.partialsPerFullDiscovery.getD s.network_partials_per_full_discovery
      else s.network_partials_per_full_discovery) ∧
    (apply_network_config_json s j).1.network_guard_interval_ms =
      (if j.nm3GatewayStayAwake.isSome ∧ j.nm3SensorStayAwake.isSome ∧
          j.cycleLimit.isSome ∧ j.partialsPerFullDiscovery.isSome then
        j.guardIntervalMs.getD s.network_guard_interval_ms
      else s.network_guard_interval_ms) ∧
    (apply_network_config_json s j).1.network_frame_interval_s =
      (if j.nm3GatewayStayAwake.isSome ∧ j.nm3SensorStayAwake.isSome ∧
          j.cycleLimit.isSome ∧ j.partialsPerFullDiscovery.isSome ∧
          j.guardIntervalMs.isSome then
        j.frameIntervalS.getD s.network_frame_interval_s
      else s.network_frame_interval_s) ∧
    (apply_network_config_json s j).1.network_link_quality_threshold =
      (if j.nm3GatewayStayAwake.isSome ∧ j.nm3SensorStayAwake.isSome ∧
          j.cycleLimit.isSome ∧ j.partialsPerFullDiscovery.isSome ∧
          j.guardIntervalMs.isSome ∧ j.frameIntervalS.isSome then
        j.linkQualityThreshold.getD s.network_link_quality_threshold
      else s.network_link_quality_threshold) ∧
    (apply_network_config_json s j).1.network_node_addresses =
      (if j.nm3GatewayStayAwake.isSome ∧ j.nm3SensorStayAwake.isSome ∧
          j.cycleLimit.isSome ∧ j.partialsPerFullDiscovery.isSome ∧
          j.guardIntervalMs.isSome ∧ j.frameIntervalS.isSome ∧
          j.linkQualityThreshold.isSome then
        j.nodeAddresses.getD s.network_node_addresses
      else s.network_node_addresses) ∧
    (apply_network_config_json s j).1.network_do_full_configuration =
      (if j.nm3GatewayStayAwake.isSome ∧ j.nm3SensorStayAwake.isSome ∧
          j.cycleLimit.isSome ∧ j.partialsPerFullDiscovery.isSome ∧
          j.guardIntervalMs.isSome ∧ j.frameIntervalS.isSome ∧
          j.linkQualityThreshold.isSome ∧ j.nodeAddresses.isSome then
        s.network_do_full_configuration ||
          node_addresses_changed (j.nodeAddresses.getD [])
            s.network_node_addresses
      else s.network_do_full_configuration) := by
  rcases j with ⟨f1, f2, f3, f4, f5, f6, f7, f8⟩
  cases f1 <;> cases f2 <;> cases f3 <;> cases f4 <;> cases f5 <;>
    cases f6 <;> cases f7 <;> cases f8 <;>
      simp [apply_network_config_json]

/-- A downloaded configuration whose JSON carries the gateway-stay-awake
key (value `false`) but is missing every other key. -/
def jPartialCex : NetConfigJson :=
  { nm3GatewayStayAwake := some false, nm3SensorStayAwake := none,
    cycleLimit := none, partialsPerFullDiscovery := none,
    guardIntervalMs := none, frameIntervalS := none,
    linkQualityThreshold := none, nodeAddresses := none }

/-- Counterexample to C9: applying a response that carries only the first
key fails partway (the `KeyError` on the second subscript aborts the
iteration), yet the gateway-stay-awake field has already been flipped from
`true` to `false` while `cycle_limit` keeps its old value — neither all
eight fields were updated nor none. -/
theorem network_config_apply_not_atomic_cex :
    (apply_network_config_json baseState jPartialCex).2 = false ∧
    baseState.network_nm3_gateway_stay_awake = true ∧
    (apply_network_config_json baseState jPartialCex).1.network_nm3_gateway_stay_awake
      = false ∧
    (apply_network_config_json baseState jPartialCex).1.network_cycle_limit =
      baseState.network_cycle_limit := by
  decide

/-- Claim C9 as amended: the eight configuration globals are assigned in a
fixed order (gateway stay-awake, sensor stay-awake, cycle limit, partials
per full discovery, guard interval, frame interval, link-quality threshold,
node addresses); the block completes exactly when the response holds all
eight keys, and each field takes the downloaded value exactly when every
key before it is present, keeping its old value otherwise — so a response
missing a key yields a prefix update, not an all-or-nothing one. -/
theorem network_config_apply_prefix_spec (s : GwState) (j : NetConfigJson) :
    ((apply_network_config_json s j).2 = true ↔
      (j.nm3GatewayStayAwake.isSome = true ∧ j.nm3SensorStayAwake.isSome = true ∧
       j.cycleLimit.isSome = true ∧ j.partialsPerFullDiscovery.isSome = true ∧
       j.guardIntervalMs.isSome = true ∧ j.frameIntervalS.isSome = true ∧
       j.linkQualityThreshold.isSome = true ∧ j.nodeAddresses.isSome = true)) ∧
    (apply_network_config_json s j).1.network_nm3_gateway_stay_awake =
      j.nm3GatewayStayAwake.getD s.network_nm3_gateway_stay_awake ∧
    (apply_network_config_json s j).1.network_nm3_sensor_stay_awake =
      (if j.nm3GatewayStayAwake.isSome then
        j.nm3SensorStayAwake.getD s.network_nm3_sensor_stay_awake
      else s.network_nm3_sensor_stay_awake) ∧
    (apply_network_config_json s j).1.network_cycle_limit =
      (if j.nm3GatewayStayAwake.isSome ∧ j.nm3SensorStayAwake.isSome then
        j.cycleLimit.getD s.network_cycle_limit
      else s.network_cycle_limit) ∧
    (apply_network_config_json s j).1.network_partials_per_full_discovery =
      (if j.nm3GatewayStayAwake.isSome ∧ j.nm3SensorStayAwake.isSome ∧
          j.cycleLimit.isSome then
        j.partialsPerFullDiscovery.getD s.network_partials_per_full_discovery
      else s.network_partials_per_full_discovery) ∧
    (apply_network_config_json s j).1.network_guard_interval_ms =
      (if j.nm3GatewayStayAwake.isSome ∧ j.nm3SensorStayAwake.isSome ∧
          j.cycleLimit.isSome ∧ j.partialsPerFullDiscovery.isSome then
        j.guardIntervalMs.getD s.network_guard_interval_ms
      else s.network_guard_interval_ms) ∧
    (apply_network_config_json s j).1.network_frame_interval_s =
      (if j.nm3GatewayStayAwake.isSome ∧ j.nm3SensorStayAwake.isSome ∧
          j.cycleLimit.isSome ∧ j.partialsPerFullDiscovery.isSome ∧
          j.guardIntervalMs.isSome then
        j.frameIntervalS.getD s.network_frame_interval_s
      else s.network_frame_interval_s) ∧
    (apply_network_config_json s j).1.network_link_quality_threshold =
      (if j.nm3GatewayStayAwake.isSome ∧ j.nm3SensorStayAwake.isSome ∧
          j.cycleLimit.isSome ∧ j.partialsPerFullDiscovery.isSome ∧
          j.guardIntervalMs.isSome ∧ j.frameIntervalS.isSome then
        j.linkQualityThreshold.getD s.network_link_quality_threshold
      else s.network_link_quality_threshold) ∧
    (apply_network_config_json s j).1.network_node_addresses =
      (if j.nm3GatewayStayAwake.isSome ∧ j.nm3SensorStayAwake.isSome ∧
          j.cycleLimit.isSome ∧ j.partialsPerFullDiscovery.isSome ∧
          j.guardIntervalMs.isSome ∧ j.frameIntervalS.isSome ∧
          j.linkQualityThreshold.isSome then
        j.nodeAddresses.getD s.network_node_addresses
      else s.network_node_addresses) ∧
    (apply_network_config_json s j).1.network_do_full_configuration =
      (if j.nm3GatewayStayAwake.isSome ∧ j.nm3SensorStayAwake.isSome ∧
          j.cycleLimit.isSome ∧ j.partialsPerFullDiscovery.isSome ∧
          j.guardIntervalMs.isSome ∧ j.frameIntervalS.isSome ∧
          j.linkQualityThreshold.isSome ∧ j.nodeAddresses.isSome then
        s.network_do_full_configuration ||
          node_addresses_changed (j.nodeAddresses.getD [])
            s.network_node_addresses
      else s.network_do_full_configuration) :=
  apply_network_config_json_spec s j

/-! ### C4 — node-set change and full rediscovery -/

/-- A supervisor state currently holding node addresses `[7, 8]`. -/
def nodeDupState : GwState := { baseState with network_node_addresses := [7, 8] }

/-- A complete downloaded configuration whose node list `[7, 7]` has the
same length as the held `[7, 8]` and only held elements, yet denotes the
set `{7}` rather than `{7, 8}`. -/
def jDupCex : NetConfigJson :=
  { nm3GatewayStayAwake := some true, nm3SensorStayAwake := some true,
    cycleLimit := some 6, partialsPerFullDiscovery := some 6,
    guardIntervalMs := some 500, frameIntervalS := some 3600,
    linkQualityThreshold := some 4, nodeAddresses := some [7, 7] }

/-- Counterexample to C4: a successful pull whose node list `[7, 7]`
differs as a set from the held `[7, 8]` (address 8 disappears) does not set
the full-configuration flag — the code only compares lengths and
membership of the new addresses in the old list, which duplicate entries
defeat. -/
theorem node_set_change_full_config_cex :
    (apply_network_config_json nodeDupState jDupCex).2 = true ∧
    jDupCex.nodeAddresses = some [7, 7] ∧
    (8 : Int) ∈ nodeDupState.network_node_addresses ∧
    (8 : Int) ∉ ([7, 7] : List Int) ∧
    (apply_network_config_json nodeDupState jDupCex).1.network_do_full_configuration
      = false := by
  decide

/-- Claim C4 as amended: after a successful pull whose node list differs in
length from the held list or contains an address not held (the code's
change test), the full-configuration flag is set; and any frame-scheduler
tick that fires (non-empty node set, frame time reached) while that flag is
set takes the full-rediscovery path: it re-initialises the protocol
(`net_protocol.init`) and passes through the state in which
`network_partials_counter` has been reset to 0. -/
theorem node_change_triggers_full_rediscovery (s : GwState) (j : NetConfigJson)
    (now : Nat) (discovery_ok : Bool) (packets : List Nat) (topo_item : Nat)
    (hok : (apply_network_config_json s j).2 = true)
    (hch : node_addresses_changed (j.nodeAddresses.getD [])
      s.network_node_addresses = true) :
    (apply_network_config_json s j).1.network_do_full_configuration = true ∧
    (∀ t : GwState, t.network_do_full_configuration = true →
      t.network_node_addresses ≠ [] →
      t.network_next_frame_time_s ≤ (now : Int) →
      (frame_section now discovery_ok packets topo_item t).2 = true ∧
      frame_configure_phase now discovery_ok (frame_schedule_phase t) =
        (frame_post_discovery now discovery_ok
          (frame_full_reinit (frame_schedule_phase t)), true) ∧
      (frame_full_reinit (frame_schedule_phase t)).network_partials_counter = 0) := by
  constructor
  · have hspec := apply_network_config_json_spec s j
    have hall := hspec.1.mp hok
    rw [hspec.2.2.2.2.2.2.2.2.2]
    rw [if_pos]
    · rw [hch]
      simp
    · exact ⟨hall.1, hall.2.1, hall.2.2.1, hall.2.2.2.1, hall.2.2.2.2.1,
        hall.2.2.2.2.2.1, hall.2.2.2.2.2.2.1, hall.2.2.2.2.2.2.2⟩
  · intro t hfull hnodes hframe
    have hsched : (frame_schedule_phase t).network_do_full_configuration = true := by
      unfold frame_schedule_phase
      split_ifs <;> simp [hfull]
    have hcfg : frame_configure_phase now discovery_ok (frame_schedule_phase t) =
        (frame_post_discovery now discovery_ok
          (frame_full_reinit (frame_schedule_phase t)), true) := by
      unfold frame_configure_phase
      rw [hsched]
      simp
    refine ⟨?_, hcfg, rfl⟩
    unfold frame_section
    rw [if_pos]
    · simp [hcfg]
    · simp [List.isEmpty_iff, hframe, hnodes]

/-- A state with the full-configuration flag raised (as the pull leaves it)
and a due frame for node `[7, 8]`. -/
def framePendingState : GwState :=
  { baseState with network_do_full_configuration := true,
                   network_node_addresses := [7, 8],
                   network_next_frame_time_s := 0 }

/-- Witness for C4 (amended): pulling `[7, 8]` over held `[7]` raises the
flag, and the due frame then re-initialises the protocol. -/
theorem node_change_triggers_full_rediscovery_witness :
    (apply_network_config_json { baseState with network_node_addresses := [7] }
      { jDupCex with nodeAddresses := some [7, 8] }).1.network_do_full_configuration
      = true ∧
    (frame_section 50 true [] 0 framePendingState).2 = true := by
  have h := node_change_triggers_full_rediscovery
    { baseState with network_node_addresses := [7] }
    { jDupCex with nodeAddresses := some [7, 8] }
    50 true [] 0 (by decide) (by decide)
  exact ⟨h.1, (h.2 framePendingState (by decide) (by decide) (by decide)).1⟩

/-! ### C1 — the sleep-entry gate -/

/-- A state whose only pending work is one queued topology record: wake
flags clear, retry budget unspent, message and status queues empty, no
nodes. -/
def sleepWithTopologies : GwState :=
  { baseState with json_to_send_network_topologies := [5] }

/-- Counterexample to C1: with both flags clear, the retry budget NOT
exhausted and a non-empty topology queue, the supervisor still initiates
sleep at wall time 100 — the gate tests only the message and status queues,
not the topology queue. -/
theorem sleep_gate_ignores_topologies_cex :
    (sleep_section 100 sleepWithTopologies).2 = true ∧
    sleepWithTopologies.json_to_send_network_topologies ≠ [] ∧
    sleepWithTopologies.wifi_connection_retry_count ≤ 5 ∧
    sleepWithTopologies.rtc.rtc_callback_flag = false ∧
    sleepWithTopologies.nm3_callback_flag = false := by
  decide

/-- Claim C1 as amended: sleep entry is initiated exactly when both the RTC
flag and the NM3 flag are clear AND either the WiFi retry budget is
exhausted (`retry_count > 5`) OR the message and status queues are both
empty (the topology queue is not consulted), the post-NM3-sync 30 s window
has expired, and either the node set is empty or the next network frame is
more than 60 s away. -/
theorem sleep_entry_gate_iff (now : Nat) (s : GwState) :
    (sleep_section now s).2 = true ↔
      (s.rtc.rtc_callback_flag = false ∧ s.nm3_callback_flag = false ∧
        (5 < s.wifi_connection_retry_count ∨
          (s.json_to_send_messages = [] ∧ s.json_to_send_statuses = [] ∧
            s.nm3_callback_seconds + 30 < now ∧
            (s.network_node_addresses = [] ∨
              (now : Int) + 60 < s.network_next_frame_time_s)))) := by
  have hb : (sleep_section now s).2 =
      (!s.rtc.rtc_callback_flag && !s.nm3_callback_flag &&
        (decide (5 < s.wifi_connection_retry_count) ||
          (s.json_to_send_messages.isEmpty && s.json_to_send_statuses.isEmpty &&
            decide (s.nm3_callback_seconds + 30 < now) &&
            (s.network_node_addresses.isEmpty ||
              decide ((now : Int) + 60 < s.network_next_frame_time_s))))) := by
    unfold sleep_section
    split_ifs with h <;> simp_all
  rw [hb]
  simp [List.isEmpty_iff, and_assoc]

/-! ### C6 — the 30 s connecting timeout is strict -/

lemma wifi_entry_guard_false {s : GwState}
    (hentry : ¬(s.json_to_send_messages = [] ∧ s.json_to_send_statuses = [] ∧
      s.json_to_send_network_topologies = [] ∧ s.network_config_is_stale = false)) :
    (s.json_to_send_messages.isEmpty && s.json_to_send_statuses.isEmpty &&
      s.json_to_send_network_topologies.isEmpty && !s.network_config_is_stale)
      = false := by
  have h : ¬((s.json_to_send_messages.isEmpty && s.json_to_send_statuses.isEmpty &&
      s.json_to_send_network_topologies.isEmpty && !s.network_config_is_stale)
      = true) := by
    intro hgx
    apply hentry
    simpa [List.isEmpty_iff, and_assoc] using hgx
  simpa using h

/-- A state in the Connecting transition since wall time 100, with a queued
message keeping the WiFi branch active. -/
def wifiConnectingAt30 : GwState :=
  { baseState with wifi_current_transition := WifiTransition.connecting,
                   wifi_connecting_start_time := 100,
                   json_to_send_messages := [1] }

/-- Counterexample to C6: at wall time 130 — exactly 30 s after the
connection attempt started at 100 — the iteration leaves the state
untouched (still Connecting); the code moves to Disconnecting only when
strictly more than 30 s have elapsed. -/
theorem wifi_connecting_timeout_boundary_cex :
    wifiConnectingAt30.wifi_current_transition = WifiTransition.connecting ∧
    130 = wifiConnectingAt30.wifi_connecting_start_time + 30 ∧
    wifi_section 130 false none false none wifiConnectingAt30 =
      wifiConnectingAt30 ∧
    (wifi_section 130 false none false none
        wifiConnectingAt30).wifi_current_transition ≠
      WifiTransition.disconnecting := by
  decide

/-- Claim C6 as amended: with the WiFi branch active, the link down and the
state Connecting, the iteration moves to Disconnecting (recording the
disconnect time) exactly when strictly more than 30 s have elapsed since
the attempt started; at exactly 30 s elapsed the state is left unchanged,
still Connecting. -/
theorem wifi_connecting_timeout_spec (now : Nat) (wifi_cfg : Option WifiCfg)
    (start_ok : Bool) (pull_result : Option NetConfigJson) (s : GwState)
    (hentry : ¬(s.json_to_send_messages = [] ∧ s.json_to_send_statuses = [] ∧
      s.json_to_send_network_topologies = [] ∧ s.network_config_is_stale = false))
    (hconn : s.wifi_current_transition = WifiTransition.connecting) :
    (s.wifi_connecting_start_time + 30 < now →
      wifi_section now false wifi_cfg start_ok pull_result s =
        { s with wifi_disconnecting_start_time := now
                 wifi_current_transition := WifiTransition.disconnecting }) ∧
    (now ≤ s.wifi_connecting_start_time + 30 →
      wifi_section now false wifi_cfg start_ok pull_result s = s) := by
  have hg := wifi_entry_guard_false hentry
  constructor
  · intro h
    simp [wifi_section, hg, hconn, h]
  · intro h
    simp [wifi_section, hg, hconn,
      show ¬(s.wifi_connecting_start_time + 30 < now) from by omega]

/-- Witness for C6 (amended): one second past the boundary the state moves
to Disconnecting. -/
theorem wifi_connecting_timeout_spec_witness :
    wifi_section 131 false none false none wifiConnectingAt30 =
      { wifiConnectingAt30 with
          wifi_disconnecting_start_time := 131
          wifi_current_transition := WifiTransition.disconnecting } :=
  (wifi_connecting_timeout_spec 131 none false none wifiConnectingAt30
    (by decide) (by decide)).1 (by decide)

/-! ### C10 — missing WiFi credentials drop all pending work -/

/-- Claim C10: when the WiFi branch runs (pending work or stale config),
the link is down, the state is not Connecting, the 2 s post-disconnect
cooldown has elapsed and `load_wifi_config()` returns nothing (absent or
malformed file), the iteration clears all three outbound queues, clears the
config-stale flag and sets the transition to Static — no HTTP request is
issued on this path. -/
theorem wifi_config_failure_clears_queues (now : Nat) (start_ok : Bool)
    (pull_result : Option NetConfigJson) (s : GwState)
    (hentry : ¬(s.json_to_send_messages = [] ∧ s.json_to_send_statuses = [] ∧
      s.json_to_send_network_topologies = [] ∧ s.network_config_is_stale = false))
    (hnc : s.wifi_current_transition ≠ WifiTransition.connecting)
    (hcool : s.wifi_disconnecting_start_time + 2 < now) :
    wifi_section now false none start_ok pull_result s =
      { s with json_to_send_messages := []
               json_to_send_statuses := []
               json_to_send_network_topologies := []
               network_config_is_stale := false
               wifi_current_transition := WifiTransition.static } := by
  have hg := wifi_entry_guard_false hentry
  simp [wifi_section, hg, hnc, hcool]

/-- A state holding items in all three queues with a stale config, WiFi
idle since wall time 0. -/
def wifiNoCfgState : GwState :=
  { baseState with json_to_send_messages := [1, 2],
                   json_to_send_statuses := [3],
                   json_to_send_network_topologies := [4],
                   network_config_is_stale := true }

/-- Witness for C10: at wall time 10 with no WiFi credentials the three
queues empty, the stale flag clears and the transition is Static. -/
theorem wifi_config_failure_clears_queues_witness :
    wifi_section 10 false none false none wifiNoCfgState =
      { wifiNoCfgState with
          json_to_send_messages := []
          json_to_send_statuses := []
          json_to_send_network_topologies := []
          network_config_is_stale := false
          wifi_current_transition := WifiTransition.static } :=
  wifi_config_failure_clears_queues 10 false none wifiNoCfgState
    (by decide) (by decide) (by decide)

end GatewayMainloop
